import Mathlib

/-!
Verification of the WEB-OSIS Synchronization & Consistency Engine specification.

The repository ships the UI layer (a landing page and a root layout) together
with design documentation; the engine components themselves (Capability Gate,
Calendar/Ledger Adapters, Local State Store, Conflict Resolver, Sync
Orchestrator) are declared and documented but their implementation files are
not part of the checked-in sources.  Those components are therefore modelled
here directly from the specification text, while the UI components are embedded
from the checked-in source files.
-/

namespace WebOsis

/-! ## Capability Gate (spec §4.1, §3) -/

/-- Modelled from the spec: the four roles of the data model (§3),
`Role ∈ {Chair, Treasurer, Secretary, Member}`.  The Capability Gate source
file is not under the checked-in sources. -/
inductive Role where
  | Chair
  | Treasurer
  | Secretary
  | Member
deriving DecidableEq, Repr

/-- Modelled from the spec: the mutation kinds of the Role Capability Set (§3):
create/update/delete event, create/update/delete transaction, reassign role. -/
inductive MutationKind where
  | createEvent
  | updateEvent
  | deleteEvent
  | createTransaction
  | updateTransaction
  | deleteTransaction
  | reassignRole
deriving DecidableEq, Repr

/-- A mutation kind that targets a `WorkProgramEvent`. -/
def MutationKind.isEventMutation : MutationKind → Bool
  | .createEvent => true
  | .updateEvent => true
  | .deleteEvent => true
  | _ => false

/-- A mutation kind that targets a `FinancialTransaction`. -/
def MutationKind.isTransactionMutation : MutationKind → Bool
  | .createTransaction => true
  | .updateTransaction => true
  | .deleteTransaction => true
  | _ => false

/-- Modelled from the spec: the static Role Capability Set mapping (§3, §4.1):
a Treasurer may only mutate transactions, a Secretary only events, a Chair may
mutate both, a Member may only read; role reassignment is an administrative
action outside this core, so no role holds it. -/
def hasCapability (r : Role) (m : MutationKind) : Bool :=
  match r with
  | .Chair => m.isEventMutation || m.isTransactionMutation
  | .Treasurer => m.isTransactionMutation
  | .Secretary => m.isEventMutation
  | .Member => false

/-- Machine-readable deny reasons of the Capability Gate contract (§4.1). -/
inductive DenyReason where
  | INSUFFICIENT_ROLE
  | ENTITY_LOCKED
deriving DecidableEq, Repr

/-- Result of `authorize`: `allow | deny(reason)` (§4.1). -/
inductive AuthResult where
  | allow
  | deny (reason : DenyReason)
deriving DecidableEq, Repr

/-- Modelled from the spec: the target entity as seen by the Capability Gate;
the entity ownership rules only need a lock marker (`ENTITY_LOCKED`). -/
structure TargetEntity where
  entityId : Nat
  locked : Bool
deriving DecidableEq, Repr

/-- Modelled from the spec: `authorize(role, mutationKind, targetEntity) ->
allow | deny(reason)` (§4.1) — a pure function of the static capability
mapping plus entity ownership rules; a deny carries a machine-readable
reason. -/
def authorize (r : Role) (m : MutationKind) (e : TargetEntity) : AuthResult :=
  if hasCapability r m then
    if e.locked then .deny .ENTITY_LOCKED else .allow
  else
    .deny .INSUFFICIENT_ROLE

/-! ## Theorems -/

/-- C1: for every role `r` and mutation kind `m` outside the capability set of `r`,
`authorize r m e` denies with `INSUFFICIENT_ROLE`; in particular a Member is
denied every mutation kind, a Treasurer every event mutation, and a Secretary
every transaction mutation. -/
theorem authorize_denies_outside_capability :
    (∀ (r : Role) (m : MutationKind) (e : TargetEntity),
        hasCapability r m = false →
          authorize r m e = .deny .INSUFFICIENT_ROLE)
    ∧ (∀ (m : MutationKind) (e : TargetEntity),
        authorize .Member m e = .deny .INSUFFICIENT_ROLE)
    ∧ (∀ (m : MutationKind) (e : TargetEntity),
        m.isEventMutation = true →
          authorize .Treasurer m e = .deny .INSUFFICIENT_ROLE)
    ∧ (∀ (m : MutationKind) (e : TargetEntity),
        m.isTransactionMutation = true →
          authorize .Secretary m e = .deny .INSUFFICIENT_ROLE) := by
  refine ⟨?_, ?_, ?_, ?_⟩
  · intro r m e h
    simp [authorize, h]
  · intro m e
    simp [authorize, hasCapability]
  · intro m e h
    cases m <;> simp_all [authorize, hasCapability, MutationKind.isEventMutation,
      MutationKind.isTransactionMutation]
  · intro m e h
    cases m <;> simp_all [authorize, hasCapability, MutationKind.isEventMutation,
      MutationKind.isTransactionMutation]

/-- C1 witness: the Treasurer lacks `createEvent`, and `authorize` denies it
with `INSUFFICIENT_ROLE` on a concrete entity. -/
theorem authorize_denies_outside_capability_witness :
    hasCapability .Treasurer .createEvent = false
    ∧ authorize .Treasurer .createEvent ⟨7, false⟩ = .deny .INSUFFICIENT_ROLE :=
  ⟨by decide,
   authorize_denies_outside_capability.1 .Treasurer .createEvent ⟨7, false⟩ (by decide)⟩

/-! ## External service table and the adapter push/delete operations
(spec §4.3/4.4) -/

/-- Look a key up in an association table of external records.  The table is
keyed by the idempotency key (the local identifier of the entity). -/
def lookupRecord {α : Type} (t : List (Nat × α)) (k : Nat) : Option α :=
  match t with
  | [] => none
  | (k2, v) :: rest => if k2 = k then some v else lookupRecord rest k

/-- Replace the payload stored under key `k`, leaving other keys untouched. -/
def updateRecord {α : Type} (t : List (Nat × α)) (k : Nat) (v : α) :
    List (Nat × α) :=
  match t with
  | [] => []
  | (k2, w) :: rest =>
      if k2 = k then (k2, v) :: updateRecord rest k v
      else (k2, w) :: updateRecord rest k v

/-- Number of external records stored under key `k`. -/
def countKey {α : Type} (t : List (Nat × α)) (k : Nat) : Nat :=
  t.countP (fun p => p.fst == k)

/-- Modelled from the spec: adapter `push(entity)` on the external service
(§4.3/4.4) — creates or updates the external counterpart; the caller passes a
stable idempotency key (the local identifier), so a push whose key is already
present updates the existing record in place instead of creating a second
one.  The adapter source files are not under the checked-in sources. -/
def pushRecord {α : Type} (t : List (Nat × α)) (k : Nat) (v : α) :
    List (Nat × α) :=
  match lookupRecord t k with
  | some _ => updateRecord t k v
  | none => (k, v) :: t

theorem countKey_nil {α : Type} (k : Nat) : countKey ([] : List (Nat × α)) k = 0 :=
  rfl

theorem countKey_eq_zero_of_lookup_none {α : Type} (t : List (Nat × α)) (k : Nat)
    (h : lookupRecord t k = none) : countKey t k = 0 := by
  induction t with
  | nil => rfl
  | cons p rest ih =>
    obtain ⟨k2, v⟩ := p
    by_cases hk : k2 = k
    · simp [lookupRecord, hk] at h
    · simp only [lookupRecord, hk, if_false] at h
      have hb : (k2 == k) = false := by simpa using hk
      simp only [countKey, List.countP_cons] at ih ⊢
      simp [hb, ih h]

theorem countKey_updateRecord {α : Type} (t : List (Nat × α)) (k : Nat) (v : α) :
    countKey (updateRecord t k v) k = countKey t k := by
  induction t with
  | nil => rfl
  | cons p rest ih =>
    obtain ⟨k2, w⟩ := p
    by_cases hk : k2 = k
    · simp only [updateRecord, if_pos hk, countKey, List.countP_cons] at ih ⊢
      simp [ih]
    · simp only [updateRecord, if_neg hk, countKey, List.countP_cons] at ih ⊢
      simp [ih]

theorem countKey_pushRecord_le {α : Type} (t : List (Nat × α)) (k : Nat) (v : α)
    (h : countKey t k ≤ 1) : countKey (pushRecord t k v) k ≤ 1 := by
  unfold pushRecord
  cases hl : lookupRecord t k with
  | none =>
    have h0 : countKey t k = 0 := countKey_eq_zero_of_lookup_none t k hl
    simp only [countKey, List.countP_cons] at h0 ⊢
    simp [h0]
  | some w =>
    rw [countKey_updateRecord]
    exact h

/-- C2: starting from any external table holding at most one record under key
`k`, any sequence of repeated pushes with the same idempotency key `k` leaves
at most one external record under `k` — retried pushes never duplicate the
external record. -/
theorem push_same_key_at_most_one_record :
    ∀ (α : Type) (t : List (Nat × α)) (k : Nat) (vs : List α),
      countKey t k ≤ 1 →
        countKey (vs.foldl (fun s v => pushRecord s k v) t) k ≤ 1 := by
  intro α t k vs
  induction vs generalizing t with
  | nil => intro h; exact h
  | cons v rest ih =>
    intro h
    exact ih (pushRecord t k v) (countKey_pushRecord_le t k v h)

/-- C2 witness: three retried pushes of payloads under the one key `5`,
starting from an empty table, leave exactly at most one record under `5`. -/
theorem push_same_key_at_most_one_record_witness :
    countKey ([] : List (Nat × Nat)) 5 ≤ 1
    ∧ countKey ([10, 20, 30].foldl (fun s v => pushRecord s 5 v) []) 5 ≤ 1 :=
  ⟨by decide, push_same_key_at_most_one_record Nat [] 5 [10, 20, 30] (by decide)⟩

/-- Raw response of the external service to a delete call: either the record
was removed, or the service reports it absent. -/
inductive ServiceResponse where
  | removed
  | NOT_FOUND
deriving DecidableEq, Repr

/-- Outcome of the adapter-level delete: `ok | fails(REJECTED)` after the
`NOT_FOUND` case has been absorbed (§4.3/4.4). -/
inductive DeleteOutcome where
  | ok
  | REJECTED
deriving DecidableEq, Repr

/-- Remove the record stored under key `r`. -/
def removeRecord {α : Type} (t : List (Nat × α)) (r : Nat) : List (Nat × α) :=
  t.filter (fun p => !(p.fst == r))

/-- Modelled from the spec: the raw external-service delete call — removes the
record when present, answers `NOT_FOUND` when it is already absent. -/
def serviceDelete {α : Type} (t : List (Nat × α)) (r : Nat) :
    ServiceResponse × List (Nat × α) :=
  match lookupRecord t r with
  | some _ => (.removed, removeRecord t r)
  | none => (.NOT_FOUND, t)

/-- Modelled from the spec: adapter `delete(externalRef)` (§4.3/4.4) —
`NOT_FOUND` from the service is treated as success (already absent), not an
error, to keep delete idempotent. -/
def adapterDelete {α : Type} (t : List (Nat × α)) (r : Nat) :
    DeleteOutcome × List (Nat × α) :=
  match serviceDelete t r with
  | (.removed, t2) => (.ok, t2)
  | (.NOT_FOUND, t2) => (.ok, t2)

theorem lookupRecord_removeRecord {α : Type} (t : List (Nat × α)) (r : Nat) :
    lookupRecord (removeRecord t r) r = none := by
  induction t with
  | nil => rfl
  | cons p rest ih =>
    obtain ⟨k2, v⟩ := p
    by_cases hk : k2 = r
    · simpa [removeRecord, hk] using ih
    · simpa [removeRecord, lookupRecord, hk] using ih

/-- C7: the adapter treats `NOT_FOUND` as success: deleting an already-absent
external record answers `ok` and leaves the table unchanged, and for every
table a second delete of the same reference (after a first one) answers `ok`
on an unchanged table — delete is idempotent. -/
theorem adapter_delete_idempotent :
    ∀ (α : Type) (t : List (Nat × α)) (r : Nat),
      (lookupRecord t r = none →
        serviceDelete t r = (.NOT_FOUND, t) ∧ adapterDelete t r = (.ok, t))
      ∧ (adapterDelete t r).1 = .ok
      ∧ adapterDelete (adapterDelete t r).2 r = (.ok, (adapterDelete t r).2) := by
  intro α t r
  refine ⟨?_, ?_, ?_⟩
  · intro h
    constructor
    · simp [serviceDelete, h]
    · simp [adapterDelete, serviceDelete, h]
  · unfold adapterDelete serviceDelete
    cases hl : lookupRecord t r <;> simp
  · unfold adapterDelete serviceDelete
    cases hl : lookupRecord t r with
    | none => simp [hl]
    | some v => simp [hl, lookupRecord_removeRecord]

/-- C7 witness: on a concrete one-record table, deleting reference `9` (absent)
succeeds with the table unchanged, and deleting reference `3` twice succeeds
both times. -/
theorem adapter_delete_idempotent_witness :
    lookupRecord [(3, 42)] 9 = none
    ∧ (serviceDelete [(3, 42)] 9 = (.NOT_FOUND, [(3, 42)])
        ∧ adapterDelete [(3, 42)] 9 = (.ok, [(3, 42)]))
    ∧ adapterDelete (adapterDelete [(3, 42)] 3).2 3
        = (.ok, (adapterDelete [(3, 42)] 3).2) :=
  ⟨by decide,
   (adapter_delete_idempotent Nat [(3, 42)] 9).1 (by decide),
   (adapter_delete_idempotent Nat [(3, 42)] 3).2.2⟩

/-! ## Local State Store (spec §4.2) -/

/-- A stored domain entity: its payload together with the monotonic version
stamp the Store maintains (§3). -/
structure StoredEntity (α : Type) where
  payload : α
  versionStamp : Nat
deriving DecidableEq, Repr

/-- Error raised by the Local State Store: `STALE_WRITE` is the
optimistic-concurrency violation of §4.2 / §7. -/
inductive StoreError where
  | STALE_WRITE
  | MISSING_ENTITY
deriving DecidableEq, Repr

/-- Modelled from the spec: `put(entity)` of the Local State Store (§4.2) —
rejects with `STALE_WRITE` a put whose caller-supplied expected-prior-version
does not match the current stamp, and otherwise writes the new payload while
incrementing the version stamp atomically with the write.  The pair returned
is the outcome surfaced to the caller together with the store contents after
the call; on failure the store is returned unchanged. -/
def putEntity {α : Type} (s : List (Nat × StoredEntity α)) (i : Nat)
    (expectedPrior : Nat) (v : α) :
    Except StoreError Unit × List (Nat × StoredEntity α) :=
  match lookupRecord s i with
  | none => (.error .MISSING_ENTITY, s)
  | some e =>
    if e.versionStamp = expectedPrior then
      (.ok (), updateRecord s i ⟨v, e.versionStamp + 1⟩)
    else
      (.error .STALE_WRITE, s)

theorem lookupRecord_updateRecord_self {α : Type} (t : List (Nat × α))
    (k : Nat) (v : α) :
    lookupRecord (updateRecord t k v) k = (lookupRecord t k).map (fun _ => v) := by
  induction t with
  | nil => rfl
  | cons p rest ih =>
    obtain ⟨k2, w⟩ := p
    by_cases hk : k2 = k
    · simp only [updateRecord, if_pos hk, lookupRecord]
      simp [hk]
    · simp only [updateRecord, if_neg hk, lookupRecord]
      simp [hk, ih]

theorem lookupRecord_updateRecord_other {α : Type} (t : List (Nat × α))
    (k j : Nat) (v : α) (hj : j ≠ k) :
    lookupRecord (updateRecord t k v) j = lookupRecord t j := by
  induction t with
  | nil => rfl
  | cons p rest ih =>
    obtain ⟨k2, w⟩ := p
    by_cases hk : k2 = k
    · have hkj : ¬k2 = j := fun h => hj (h ▸ hk)
      simp only [updateRecord, if_pos hk, lookupRecord]
      simp [hkj, ih]
    · simp only [updateRecord, if_neg hk, lookupRecord]
      by_cases hkj : k2 = j
      · simp [hkj]
      · simp [hkj, ih]

/-- C5: on an entity currently stored at version `e.versionStamp`, `put` fails
with `STALE_WRITE` and leaves the store unchanged whenever the caller-supplied
expected-prior-version differs from the current stamp, and succeeds whenever
it matches, writing the new payload with the version stamp incremented as one
atomic update and leaving every other entity untouched. -/
theorem put_stale_write_control :
    ∀ (α : Type) (s : List (Nat × StoredEntity α)) (i expectedPrior : Nat)
      (v : α) (e : StoredEntity α),
      lookupRecord s i = some e →
        (expectedPrior ≠ e.versionStamp →
          putEntity s i expectedPrior v = (.error .STALE_WRITE, s))
        ∧ (expectedPrior = e.versionStamp →
          (putEntity s i expectedPrior v).1 = .ok ()
          ∧ lookupRecord (putEntity s i expectedPrior v).2 i
              = some ⟨v, e.versionStamp + 1⟩
          ∧ ∀ j, j ≠ i →
              lookupRecord (putEntity s i expectedPrior v).2 j
                = lookupRecord s j) := by
  intro α s i expectedPrior v e he
  constructor
  · intro hne
    have hne2 : ¬e.versionStamp = expectedPrior := fun h => hne h.symm
    simp [putEntity, he, hne2]
  · intro heq
    subst heq
    refine ⟨?_, ?_, ?_⟩
    · simp [putEntity, he]
    · simp [putEntity, he, lookupRecord_updateRecord_self, he]
    · intro j hj
      simp [putEntity, he, lookupRecord_updateRecord_other _ _ _ _ hj]

/-- C5 witness: on a store holding entity `1` at version 4, a put expecting
version 3 fails with `STALE_WRITE` and changes nothing, while a put expecting
version 4 succeeds and stores the new payload at version 5. -/
theorem put_stale_write_control_witness :
    lookupRecord [(1, (⟨10, 4⟩ : StoredEntity Nat))] 1 = some ⟨10, 4⟩
    ∧ putEntity [(1, (⟨10, 4⟩ : StoredEntity Nat))] 1 3 99
        = (.error .STALE_WRITE, [(1, ⟨10, 4⟩)])
    ∧ (putEntity [(1, (⟨10, 4⟩ : StoredEntity Nat))] 1 4 99).1 = .ok ()
    ∧ lookupRecord (putEntity [(1, (⟨10, 4⟩ : StoredEntity Nat))] 1 4 99).2 1
        = some ⟨99, 5⟩ :=
  ⟨by decide,
   ((put_stale_write_control Nat [(1, ⟨10, 4⟩)] 1 3 99 ⟨10, 4⟩ (by decide)).1
     (by decide)),
   ((put_stale_write_control Nat [(1, ⟨10, 4⟩)] 1 4 99 ⟨10, 4⟩ (by decide)).2
     (by decide)).1,
   ((put_stale_write_control Nat [(1, ⟨10, 4⟩)] 1 4 99 ⟨10, 4⟩ (by decide)).2
     (by decide)).2.1⟩

/-! ## Domain entities and external records (spec §3, §4.3/4.4) -/

/-- Event status of the data model (§3): planned / in-progress / done. -/
inductive EventStatus where
  | planned
  | inProgress
  | done
deriving DecidableEq, Repr

/-- Modelled from the spec: `WorkProgramEvent` (§3): local identifier, title,
time window, status, external calendar reference, local version stamp,
last-known external modification token, plus the stamp at which the external
reference was last confirmed pushed (§3 invariants). -/
structure WorkProgramEvent where
  localId : Nat
  title : String
  windowStart : Nat
  windowEnd : Nat
  status : EventStatus
  externalRef : Option Nat
  versionStamp : Nat
  lastExtToken : Option Nat
  lastConfirmedPushStamp : Nat
deriving DecidableEq, Repr

/-- Modelled from the spec: `FinancialTransaction` (§3): local identifier,
signed minor-unit amount, category, timestamp, external ledger row reference,
local version stamp, last-known external modification token, last confirmed
pushed stamp. -/
structure FinancialTransaction where
  localId : Nat
  amount : Int
  category : String
  timestamp : Nat
  externalRef : Option Nat
  versionStamp : Nat
  lastExtToken : Option Nat
  lastConfirmedPushStamp : Nat
deriving DecidableEq, Repr

/-- The calendar-side payload of an event: the fields the calendar service
stores (the service has no native status field; the status travels in the
free-text description, §4.3). -/
structure CalendarPayload where
  title : String
  windowStart : Nat
  windowEnd : Nat
  descriptionText : String
deriving DecidableEq, Repr

/-- An external calendar record: its payload plus the opaque modification
token the service reports for conflict detection. -/
structure CalendarRecord where
  payload : CalendarPayload
  modToken : Nat
deriving DecidableEq, Repr

/-- The ledger-side payload of a transaction: one spreadsheet row. -/
structure LedgerPayload where
  amount : Int
  category : String
  timestamp : Nat
deriving DecidableEq, Repr

/-- An external ledger record: its row payload plus the modification token. -/
structure LedgerRecord where
  payload : LedgerPayload
  modToken : Nat
deriving DecidableEq, Repr

/-! ## Conflict Resolver (spec §4.5) -/

/-- Modelled from the spec: true-conflict detection for a transaction (§4.5):
the external modification token differs from the last one the system
recorded, while the local version stamp has advanced past the last confirmed
push. -/
def txnTrueConflict (l : FinancialTransaction) (e : LedgerRecord) : Bool :=
  (l.lastExtToken != some e.modToken)
    && decide (l.lastConfirmedPushStamp < l.versionStamp)

/-- Modelled from the spec: true-conflict detection for an event (§4.5). -/
def eventTrueConflict (l : WorkProgramEvent) (e : CalendarRecord) : Bool :=
  (l.lastExtToken != some e.modToken)
    && decide (l.lastConfirmedPushStamp < l.versionStamp)

/-- Outcome of resolving a transaction conflict: the state written back
locally, whether the pending local push is cancelled, and whether an outward
push is re-queued. -/
structure TxnResolution where
  newLocal : FinancialTransaction
  cancelPendingPush : Bool
  requeuePush : Bool
deriving DecidableEq, Repr

/-- Modelled from the spec: Conflict Resolver policy for
`FinancialTransaction` (§4.5): external (ledger) wins unconditionally; local
state is overwritten with the external state and re-versioned, and any
pending local push for the entity is cancelled — no outward push is
re-triggered. -/
def resolveTransaction (l : FinancialTransaction) (e : LedgerRecord) :
    TxnResolution :=
  { newLocal :=
      { l with
        amount := e.payload.amount
        category := e.payload.category
        timestamp := e.payload.timestamp
        versionStamp := l.versionStamp + 1
        lastExtToken := some e.modToken }
    cancelPendingPush := true
    requeuePush := false }

/-- Outcome of resolving an event conflict. -/
structure EventResolution where
  newLocal : WorkProgramEvent
  cancelPendingPush : Bool
  requeuePush : Bool
deriving DecidableEq, Repr

/-- Modelled from the spec: Conflict Resolver policy for `WorkProgramEvent`
(§4.5): field-level merge — local wins for `status`, external wins for
`title` and the time window; the merge result is written locally at a new
version stamp and re-queued for one outward push. -/
def resolveEvent (l : WorkProgramEvent) (e : CalendarRecord) :
    EventResolution :=
  { newLocal :=
      { l with
        title := e.payload.title
        windowStart := e.payload.windowStart
        windowEnd := e.payload.windowEnd
        versionStamp := l.versionStamp + 1
        lastExtToken := some e.modToken }
    cancelPendingPush := false
    requeuePush := true }

/-- C3: under a true conflict on a `FinancialTransaction`, resolution takes
the external ledger state for every data field, writes it at a new (strictly
larger) version stamp, cancels the pending local push, and re-triggers no
outward push. -/
theorem transaction_conflict_external_wins :
    ∀ (l : FinancialTransaction) (e : LedgerRecord),
      txnTrueConflict l e = true →
        (resolveTransaction l e).newLocal.amount = e.payload.amount
        ∧ (resolveTransaction l e).newLocal.category = e.payload.category
        ∧ (resolveTransaction l e).newLocal.timestamp = e.payload.timestamp
        ∧ (resolveTransaction l e).newLocal.versionStamp = l.versionStamp + 1
        ∧ l.versionStamp < (resolveTransaction l e).newLocal.versionStamp
        ∧ (resolveTransaction l e).cancelPendingPush = true
        ∧ (resolveTransaction l e).requeuePush = false := by
  intro l e _
  exact ⟨rfl, rfl, rfl, rfl, Nat.lt_succ_self _, rfl, rfl⟩

/-- C3 witness: the specification scenario — a transaction pushed at
`-50000`, edited in the ledger to `-45000`; the conflict is true and
resolution adopts `-45000`, bumps the version stamp, cancels the pending
push, and re-queues nothing. -/
theorem transaction_conflict_external_wins_witness :
    txnTrueConflict
        ⟨1, -50000, "supplies", 0, some 1, 2, some 1, 1⟩
        ⟨⟨-45000, "supplies", 0⟩, 2⟩ = true
    ∧ ((resolveTransaction
          ⟨1, -50000, "supplies", 0, some 1, 2, some 1, 1⟩
          ⟨⟨-45000, "supplies", 0⟩, 2⟩).newLocal.amount = -45000
        ∧ (resolveTransaction
            ⟨1, -50000, "supplies", 0, some 1, 2, some 1, 1⟩
            ⟨⟨-45000, "supplies", 0⟩, 2⟩).newLocal.category = "supplies"
        ∧ (resolveTransaction
            ⟨1, -50000, "supplies", 0, some 1, 2, some 1, 1⟩
            ⟨⟨-45000, "supplies", 0⟩, 2⟩).newLocal.timestamp = 0
        ∧ (resolveTransaction
            ⟨1, -50000, "supplies", 0, some 1, 2, some 1, 1⟩
            ⟨⟨-45000, "supplies", 0⟩, 2⟩).newLocal.versionStamp = 2 + 1
        ∧ 2 < (resolveTransaction
            ⟨1, -50000, "supplies", 0, some 1, 2, some 1, 1⟩
            ⟨⟨-45000, "supplies", 0⟩, 2⟩).newLocal.versionStamp
        ∧ (resolveTransaction
            ⟨1, -50000, "supplies", 0, some 1, 2, some 1, 1⟩
            ⟨⟨-45000, "supplies", 0⟩, 2⟩).cancelPendingPush = true
        ∧ (resolveTransaction
            ⟨1, -50000, "supplies", 0, some 1, 2, some 1, 1⟩
            ⟨⟨-45000, "supplies", 0⟩, 2⟩).requeuePush = false) :=
  ⟨by decide,
   transaction_conflict_external_wins
     ⟨1, -50000, "supplies", 0, some 1, 2, some 1, 1⟩
     ⟨⟨-45000, "supplies", 0⟩, 2⟩ (by decide)⟩

/-- C4: under a true conflict on a `WorkProgramEvent`, resolution merges
field-by-field: local wins for `status`, external wins for `title` and the
time window; the merge is written at a new (strictly larger) version stamp
and re-queued for one outward push, with no cancellation of the entity. -/
theorem event_conflict_field_merge :
    ∀ (l : WorkProgramEvent) (e : CalendarRecord),
      eventTrueConflict l e = true →
        (resolveEvent l e).newLocal.status = l.status
        ∧ (resolveEvent l e).newLocal.title = e.payload.title
        ∧ (resolveEvent l e).newLocal.windowStart = e.payload.windowStart
        ∧ (resolveEvent l e).newLocal.windowEnd = e.payload.windowEnd
        ∧ (resolveEvent l e).newLocal.versionStamp = l.versionStamp + 1
        ∧ l.versionStamp < (resolveEvent l e).newLocal.versionStamp
        ∧ (resolveEvent l e).requeuePush = true
        ∧ (resolveEvent l e).cancelPendingPush = false := by
  intro l e _
  exact ⟨rfl, rfl, rfl, rfl, rfl, Nat.lt_succ_self _, rfl, rfl⟩

/-- C4 witness: the specification scenario — status set to `done` locally
while the title was edited externally; the merge keeps `status = done`, takes
the external title, and re-queues one outward push. -/
theorem event_conflict_field_merge_witness :
    eventTrueConflict
        ⟨2, "Rapat", 10, 12, .done, some 5, 3, some 1, 2⟩
        ⟨⟨"Rapat OSIS", 10, 12, "[planned]"⟩, 2⟩ = true
    ∧ ((resolveEvent
          ⟨2, "Rapat", 10, 12, .done, some 5, 3, some 1, 2⟩
          ⟨⟨"Rapat OSIS", 10, 12, "[planned]"⟩, 2⟩).newLocal.status = .done
        ∧ (resolveEvent
            ⟨2, "Rapat", 10, 12, .done, some 5, 3, some 1, 2⟩
            ⟨⟨"Rapat OSIS", 10, 12, "[planned]"⟩, 2⟩).newLocal.title
            = "Rapat OSIS"
        ∧ (resolveEvent
            ⟨2, "Rapat", 10, 12, .done, some 5, 3, some 1, 2⟩
            ⟨⟨"Rapat OSIS", 10, 12, "[planned]"⟩, 2⟩).newLocal.windowStart = 10
        ∧ (resolveEvent
            ⟨2, "Rapat", 10, 12, .done, some 5, 3, some 1, 2⟩
            ⟨⟨"Rapat OSIS", 10, 12, "[planned]"⟩, 2⟩).newLocal.windowEnd = 12
        ∧ (resolveEvent
            ⟨2, "Rapat", 10, 12, .done, some 5, 3, some 1, 2⟩
            ⟨⟨"Rapat OSIS", 10, 12, "[planned]"⟩, 2⟩).newLocal.versionStamp
            = 3 + 1
        ∧ 3 < (resolveEvent
            ⟨2, "Rapat", 10, 12, .done, some 5, 3, some 1, 2⟩
            ⟨⟨"Rapat OSIS", 10, 12, "[planned]"⟩, 2⟩).newLocal.versionStamp
        ∧ (resolveEvent
            ⟨2, "Rapat", 10, 12, .done, some 5, 3, some 1, 2⟩
            ⟨⟨"Rapat OSIS", 10, 12, "[planned]"⟩, 2⟩).requeuePush = true
        ∧ (resolveEvent
            ⟨2, "Rapat", 10, 12, .done, some 5, 3, some 1, 2⟩
            ⟨⟨"Rapat OSIS", 10, 12, "[planned]"⟩, 2⟩).cancelPendingPush
            = false) :=
  ⟨by decide,
   event_conflict_field_merge
     ⟨2, "Rapat", 10, 12, .done, some 5, 3, some 1, 2⟩
     ⟨⟨"Rapat OSIS", 10, 12, "[planned]"⟩, 2⟩ (by decide)⟩

/-! ## Adapter translation rules (spec §4.3/4.4) -/

/-- Modelled from the spec: the documented, stable drop policy of the
calendar translation (§4.3): local `status` maps to a status tag at the head
of the calendar event free-text description, since the calendar service has
no native status field. -/
def statusTag : EventStatus → String
  | .planned => "[planned]"
  | .inProgress => "[in-progress]"
  | .done => "[done]"

/-- Parse the status tag back out of a calendar description. -/
def parseStatusTag (s : String) : Option EventStatus :=
  if s = "[planned]" then some .planned
  else if s = "[in-progress]" then some .inProgress
  else if s = "[done]" then some .done
  else none

/-- Modelled from the spec: pull-side translation of the Calendar Adapter —
deterministic and total: each external field maps to the corresponding domain
field; an entity of external origin is persisted with a synthesized version
stamp of 0 (§3); a description without a status tag falls back to
`planned`. -/
def calendarToDomain (i extRef : Nat) (e : CalendarRecord) : WorkProgramEvent :=
  { localId := i
    title := e.payload.title
    windowStart := e.payload.windowStart
    windowEnd := e.payload.windowEnd
    status := (parseStatusTag e.payload.descriptionText).getD .planned
    externalRef := some extRef
    versionStamp := 0
    lastExtToken := some e.modToken
    lastConfirmedPushStamp := 0 }

/-- Modelled from the spec: push-side translation of the Calendar Adapter —
every local data field maps to exactly one external field; `status` goes to
the description tag; bookkeeping fields (version stamp, tokens) are
dropped. -/
def domainToCalendar (l : WorkProgramEvent) : CalendarPayload :=
  { title := l.title
    windowStart := l.windowStart
    windowEnd := l.windowEnd
    descriptionText := statusTag l.status }

/-- Modelled from the spec: pull-side translation of the Ledger Adapter. -/
def ledgerToDomain (i extRef : Nat) (e : LedgerRecord) : FinancialTransaction :=
  { localId := i
    amount := e.payload.amount
    category := e.payload.category
    timestamp := e.payload.timestamp
    externalRef := some extRef
    versionStamp := 0
    lastExtToken := some e.modToken
    lastConfirmedPushStamp := 0 }

/-- Modelled from the spec: push-side translation of the Ledger Adapter. -/
def domainToLedger (l : FinancialTransaction) : LedgerPayload :=
  { amount := l.amount
    category := l.category
    timestamp := l.timestamp }

theorem statusTag_parseStatusTag {s : String} {st : EventStatus}
    (h : parseStatusTag s = some st) : statusTag st = s := by
  unfold parseStatusTag at h
  split_ifs at h with h1 h2 h3
  · cases Option.some.inj h
    exact h1.symm
  · cases Option.some.inj h
    exact h2.symm
  · cases Option.some.inj h
    exact h3.symm

/-- C6 counterexample: the round-trip identity does not hold for every pulled
record.  A calendar record authored externally with a free-text description
(here "Catatan bebas") is a pulled entity, yet converting it to domain form
and back rewrites its description to the planned tag: the resulting payload
differs from the original external record. -/
theorem pull_push_round_trip_counterexample :
    domainToCalendar
        (calendarToDomain 1 2 ⟨⟨"Rapat", 5, 6, "Catatan bebas"⟩, 3⟩)
      ≠ CalendarPayload.mk "Rapat" 5 6 "Catatan bebas"
    ∧ domainToCalendar
        (calendarToDomain 1 2 ⟨⟨"Rapat", 5, 6, "Catatan bebas"⟩, 3⟩)
      = ⟨"Rapat", 5, 6, "[planned]"⟩ := by
  constructor
  · decide
  · rfl

/-- C6 (amended): pull-then-push round-trip identity of the adapter
translations, restricted to the records the policy can represent: a calendar
record whose description carries a status tag (as every record the system
itself pushed does) converts to domain form and back to a payload equal to
the original; every pushed payload does carry such a tag; and the ledger
translation round-trips unconditionally. -/
theorem pull_push_round_trip :
    (∀ (i extRef : Nat) (e : CalendarRecord),
        (parseStatusTag e.payload.descriptionText).isSome = true →
          domainToCalendar (calendarToDomain i extRef e) = e.payload)
    ∧ (∀ l : WorkProgramEvent,
        parseStatusTag (domainToCalendar l).descriptionText = some l.status)
    ∧ (∀ (i extRef : Nat) (e : LedgerRecord),
        domainToLedger (ledgerToDomain i extRef e) = e.payload) := by
  refine ⟨?_, ?_, ?_⟩
  · intro i extRef e h
    obtain ⟨⟨t, ws, we, d⟩, mt⟩ := e
    obtain ⟨st, hst⟩ := Option.isSome_iff_exists.mp h
    simp only at hst
    simp only [domainToCalendar, calendarToDomain, hst, Option.getD_some]
    simp [statusTag_parseStatusTag hst]
  · intro l
    have ht : parseStatusTag (statusTag l.status) = some l.status := by
      cases l.status <;> decide
    simpa [domainToCalendar] using ht
  · intro i extRef e
    obtain ⟨⟨a, c, ts⟩, mt⟩ := e
    rfl

/-- C6 witness: a concrete calendar record with a `[done]` tag round-trips to
an identical payload. -/
theorem pull_push_round_trip_witness :
    (parseStatusTag
        (CalendarPayload.mk "Rapat" 5 6 "[done]").descriptionText).isSome = true
    ∧ domainToCalendar (calendarToDomain 1 2 ⟨⟨"Rapat", 5, 6, "[done]"⟩, 3⟩)
        = ⟨"Rapat", 5, 6, "[done]"⟩ :=
  ⟨by decide,
   pull_push_round_trip.1 1 2 ⟨⟨"Rapat", 5, 6, "[done]"⟩, 3⟩ (by decide)⟩

/-! ## Sync Orchestrator: per-entity push ordering (spec §4.6, §3) -/

/-- Modelled from the spec: the propagation state the Orchestrator keeps for
one entity (§3, §4.6): the current local version stamp of the entity, the last
confirmed-pushed stamp, the in-flight marker (at most one propagation per
entity, so an `Option`), and the log of versions as observed externally, in
arrival order. -/
structure EntitySyncState where
  localVersion : Nat
  lastPushed : Nat
  inFlight : Option Nat
  pushLog : List Nat
deriving DecidableEq, Repr

/-- One scheduling step of the Orchestrator for a single entity. -/
inductive SyncStep where
  | localMutation
  | startPush
  | completePush
deriving DecidableEq, Repr

/-- Modelled from the spec: the per-entity transition function of the Sync
Orchestrator (§4.6): a local mutation increments the version stamp; a push
may start only when no propagation is in flight (the single-in-flight
invariant of §3) and the entity is pending (`listPending`: version stamp
exceeds the last confirmed-pushed stamp), carrying the current version; push
completion appends the in-flight version to the externally observed log and
confirms it.  A step whose guard fails leaves the state unchanged. -/
def syncStep (s : EntitySyncState) : SyncStep → EntitySyncState
  | .localMutation => { s with localVersion := s.localVersion + 1 }
  | .startPush =>
      match s.inFlight with
      | some _ => s
      | none =>
          if s.lastPushed < s.localVersion then
            { s with inFlight := some s.localVersion }
          else s
  | .completePush =>
      match s.inFlight with
      | none => s
      | some v =>
          { s with
            inFlight := none
            lastPushed := v
            pushLog := s.pushLog ++ [v] }

/-- Initial per-entity state: fresh entity, nothing pushed yet. -/
def initialSyncState : EntitySyncState :=
  { localVersion := 0, lastPushed := 0, inFlight := none, pushLog := [] }

/-- Run a sequence of Orchestrator steps from the initial state. -/
def runSync (steps : List SyncStep) : EntitySyncState :=
  steps.foldl syncStep initialSyncState

/-- The inductive invariant of the per-entity propagation state. -/
def syncInvariant (s : EntitySyncState) : Prop :=
  s.pushLog.Sorted (· ≤ ·)
  ∧ (∀ x ∈ s.pushLog, x ≤ s.lastPushed)
  ∧ s.lastPushed ≤ s.localVersion
  ∧ (∀ v, s.inFlight = some v → s.lastPushed ≤ v ∧ v ≤ s.localVersion)

theorem syncInvariant_initial : syncInvariant initialSyncState := by
  refine ⟨List.sorted_nil, ?_, Nat.le_refl 0, ?_⟩
  · intro x hx
    exact absurd hx (List.not_mem_nil x)
  · intro v hv
    exact Option.noConfusion hv

theorem syncInvariant_step (s : EntitySyncState) (st : SyncStep)
    (h : syncInvariant s) : syncInvariant (syncStep s st) := by
  obtain ⟨hsorted, hlog, hlv, hfl⟩ := h
  cases st with
  | localMutation =>
    refine ⟨hsorted, hlog, Nat.le_succ_of_le hlv, ?_⟩
    intro v hv
    obtain ⟨h1, h2⟩ := hfl v hv
    exact ⟨h1, Nat.le_succ_of_le h2⟩
  | startPush =>
    cases hif : s.inFlight with
    | some w => exact ⟨by simpa [syncStep, hif] using hsorted,
        by simpa [syncStep, hif] using hlog,
        by simpa [syncStep, hif] using hlv,
        by simpa [syncStep, hif] using hfl⟩
    | none =>
      by_cases hp : s.lastPushed < s.localVersion
      · refine ⟨by simpa [syncStep, hif, hp] using hsorted,
          by simpa [syncStep, hif, hp] using hlog,
          by simpa [syncStep, hif, hp] using hlv, ?_⟩
        intro v hv
        simp only [syncStep, hif, if_pos hp] at hv ⊢
        cases Option.some.inj hv
        exact ⟨Nat.le_of_lt hp, Nat.le_refl _⟩
      · exact ⟨by simpa [syncStep, hif, hp] using hsorted,
          by simpa [syncStep, hif, hp] using hlog,
          by simp [syncStep, hif, hp, hlv],
          by simp [syncStep, hif, hp]⟩
  | completePush =>
    cases hif : s.inFlight with
    | none => exact ⟨by simpa [syncStep, hif] using hsorted,
        by simpa [syncStep, hif] using hlog,
        by simp [syncStep, hif, hlv],
        by simp [syncStep, hif]⟩
    | some v =>
      obtain ⟨hv1, hv2⟩ := hfl v hif
      refine ⟨?_, ?_, by simpa [syncStep, hif] using hv2, ?_⟩
      · simp only [syncStep, hif]
        refine List.pairwise_append.mpr ⟨hsorted, List.sorted_singleton v, ?_⟩
        intro x hx y hy
        cases List.mem_singleton.mp hy
        exact Nat.le_trans (hlog x hx) hv1
      · intro x hx
        simp only [syncStep, hif, List.mem_append, List.mem_singleton] at hx ⊢
        cases hx with
        | inl hx2 => exact Nat.le_trans (hlog x hx2) hv1
        | inr hx2 => cases hx2; exact Nat.le_refl _
      · intro w hw
        simp only [syncStep, hif] at hw
        exact Option.noConfusion hw

theorem syncInvariant_foldl (steps : List SyncStep) (s : EntitySyncState)
    (h : syncInvariant s) : syncInvariant (steps.foldl syncStep s) := by
  induction steps generalizing s with
  | nil => exact h
  | cons st rest ih => exact ih (syncStep s st) (syncInvariant_step s st h)

/-- C8: for every sequence of per-entity Orchestrator steps (local mutations,
push starts, push completions), the versions observed externally arrive in
non-decreasing local-version order; the model admits at most one in-flight
propagation per entity by construction (the in-flight marker is a single
optional slot). -/
theorem pushes_in_version_order :
    ∀ steps : List SyncStep, (runSync steps).pushLog.Sorted (· ≤ ·) :=
  fun steps =>
    (syncInvariant_foldl steps initialSyncState syncInvariant_initial).1

/-! ## UI components, embedded from the checked-in source files -/

/-- A rendered markup node: an element with a tag, attributes and children, or
a text node. -/
inductive Html where
  | el (tag : String) (attrs : List (String × String)) (children : List Html)
  | text (s : String)
deriving Repr

/-- One entry of the `features` array of `LandingPage`
(src/unnamed/part_000, lines 9-40). -/
structure Feature where
  icon : String
  title : String
  description : String
deriving DecidableEq, Repr

/-- The `features` array of `LandingPage`, in declaration order
(src/unnamed/part_000, lines 9-40). -/
def features : List Feature :=
  [ ⟨"📋", "Program Kerja Terpadu",
      "Kelola program kerja dengan Kanban board interaktif dan drag-drop"⟩
  , ⟨"📅", "Kalender Kerja Terintegrasi",
      "Sinkronisasi otomatis dengan Google Calendar untuk jadwal OSIS"⟩
  , ⟨"📁", "E-Library Dokumen",
      "Penyimpanan digital untuk SK, LPJ, dan notulensi rapat"⟩
  , ⟨"💰", "Modul Keuangan Transparan",
      "Dashboard keuangan dengan laporan real-time dari Google Sheets"⟩
  , ⟨"👥", "Manajemen Multi-Role",
      "Kontrol akses untuk Ketua, Bendahara, Sekretaris, dan Anggota"⟩
  , ⟨"📊", "Dashboard Analitik",
      "Visualisasi data dengan grafik dan statistik real-time"⟩ ]

/-- One feature card as rendered by `features.map` in `LandingPage`
(src/unnamed/part_000, lines 93-103): a glass Card holding the icon, the
title and the description of the feature. -/
def renderFeatureCard (f : Feature) : Html :=
  .el "Card" [("variant", "glass"), ("hover", ""), ("className", "p-8")]
    [ .el "div" [("className", "text-4xl mb-4")] [.text f.icon]
    , .el "h3" [("className", "text-xl font-bold text-secondary-900 mb-3")]
        [.text f.title]
    , .el "p" [("className", "text-secondary-600")] [.text f.description] ]

/-- The navigation bar of `LandingPage` (lines 44-52). -/
def landingNav : Html :=
  .el "nav"
    [("className",
      "sticky top-0 z-50 bg-white/80 backdrop-blur-md border-b border-secondary-200")]
    [ .el "div" [] [ .el "div" [] [.text "🎯 OSIS Manager"]
    , .el "Link" [("href", "/login")]
        [.el "Button" [("variant", "primary")] [.text "Login"]] ] ]

/-- The hero section of `LandingPage` (lines 54-85). -/
def landingHero : Html :=
  .el "section" [("className", "max-w-7xl mx-auto px-4 sm:px-6 lg:px-8 py-24")]
    [ .el "div" [("className", "text-center animate-fade-in")]
        [ .el "h1" [] [ .text "Sistem Manajemen OSIS "
            , .el "span" [] [.text "Modern & Profesional"] ]
        , .el "p" []
            [.text "Platform SaaS untuk mengelola organisasi sekolah dengan kemudahan tinggi, integrasi Google, dan desain yang inspiratif."]
        , .el "div" []
            [ .el "Link" [("href", "/login")]
                [.el "Button" [("size", "lg"), ("variant", "primary")]
                  [.text "Mulai Sekarang"]]
            , .el "Button" [("size", "lg"), ("variant", "secondary")]
                [.text "Pelajari Lebih Lanjut"] ] ]
    , .el "div" [("className", "mt-16 rounded-2xl overflow-hidden shadow-2xl")]
        [ .el "div" []
            [ .el "div" [] [ .el "div" [] [.text "📊"]
            , .el "p" [] [.text "Dashboard Preview"] ] ] ] ]

/-- The features section of `LandingPage` (lines 87-105): a heading and a grid
mapping `features` to cards in array order. -/
def landingFeaturesSection : Html :=
  .el "section" [("className", "max-w-7xl mx-auto px-4 sm:px-6 lg:px-8 py-24")]
    [ .el "h2" [("className", "text-4xl font-bold text-center text-secondary-900 mb-16")]
        [.text "Fitur Unggulan"]
    , .el "div" [("className", "grid md:grid-cols-2 lg:grid-cols-3 gap-8")]
        (features.map renderFeatureCard) ]

/-- The call-to-action section of `LandingPage` (lines 107-122). -/
def landingCta : Html :=
  .el "section" [("className", "bg-gradient-to-r from-primary-600 to-primary-500 py-16")]
    [ .el "div" []
        [ .el "h2" [] [.text "Siap Mengubah Cara Kalian Mengelola OSIS?"]
        , .el "p" []
            [.text "Bergabunglah dengan ribuan sekolah yang sudah menggunakan OSIS Manager"]
        , .el "Link" [("href", "/login")]
            [.el "Button" [("size", "lg"), ("variant", "secondary")]
              [.text "Mulai Trial Gratis"]] ] ]

/-- The footer of `LandingPage` (lines 124-129). -/
def landingFooter : Html :=
  .el "footer" [("className", "bg-secondary-900 text-secondary-300 py-8")]
    [ .el "div" []
        [.text "© 2024 OSIS Manager. All rights reserved. Made with ❤️ for Indonesian Students."] ]

/-- The component `LandingPage` (src/unnamed/part_000, lines 8-132): a parameterless
component — it reads no props and no state, so every render produces this
same tree. -/
def LandingPage : Html :=
  .el "div"
    [("className", "min-h-screen bg-gradient-to-br from-primary-50 via-white to-secondary-50")]
    [landingNav, landingHero, landingFeaturesSection, landingCta, landingFooter]

/-- The `i`-th child of an element node. -/
def Html.childAt (h : Html) (i : Nat) : Option Html :=
  match h with
  | .text _ => none
  | .el _ _ cs => cs.get? i

/-- All text leaves of a node, in document order. -/
def Html.textContent : Html → List String
  | .text s => [s]
  | .el _ _ cs => textContentList cs
where
  textContentList : List Html → List String
    | [] => []
    | c :: cs => c.textContent ++ textContentList cs

/-- The children of the feature grid: the features section of the page (child 2)
holds the grid as its second child (child 1). -/
def featureCardsOf (page : Html) : List Html :=
  match (page.childAt 2).bind (fun s => s.childAt 1) with
  | some (.el _ _ cs) => cs
  | _ => []

/-- C9: `LandingPage` is a parameterless constant, and the page contains
exactly six feature cards — one per element of the fixed `features` array, in
declaration order — each showing exactly the icon of that element, title and
description as its text content. -/
theorem landing_page_six_feature_cards :
    featureCardsOf LandingPage = features.map renderFeatureCard
    ∧ (featureCardsOf LandingPage).length = 6
    ∧ (∀ i : Nat,
        (featureCardsOf LandingPage)[i]?
          = (features[i]?).map renderFeatureCard)
    ∧ (∀ f : Feature,
        (renderFeatureCard f).textContent = [f.icon, f.title, f.description]) := by
  refine ⟨rfl, rfl, ?_, ?_⟩
  · intro i
    show (features.map renderFeatureCard)[i]?
        = (features[i]?).map renderFeatureCard
    exact List.getElem?_map renderFeatureCard features i
  · intro f
    rfl

/-- The shape of the `metadata` constant exported by the root layout
(src/frontend/app/layout.tsx, lines 5-8). -/
structure Metadata where
  title : String
  description : String
deriving DecidableEq, Repr

/-- The constant `metadata` of src/frontend/app/layout.tsx, lines 5-8. -/
def metadata : Metadata :=
  { title := "OSIS Management System"
    description := "Sistem Manajemen Organisasi Sekolah Modern" }

/-- The component `RootLayout` (src/frontend/app/layout.tsx, lines 10-24): renders
`html(lang="id") > body > Providers > children`. -/
def RootLayout (children : Html) : Html :=
  .el "html" [("lang", "id"), ("suppressHydrationWarning", "")]
    [.el "body" [] [.el "Providers" [] [children]]]

/-- Look an attribute up on an element node. -/
def lookupAttr : List (String × String) → String → Option String
  | [], _ => none
  | (k, v) :: rest, key => if k = key then some v else lookupAttr rest key

/-- The `lang` attribute of the `html` root element of a document. -/
def htmlLangOf : Html → Option String
  | .el "html" attrs _ => lookupAttr attrs "lang"
  | _ => none

/-- The children wrapped by the `Providers` element directly under `body`. -/
def providersChildrenOf (page : Html) : List Html :=
  match (page.childAt 0).bind (fun b => b.childAt 0) with
  | some (.el "Providers" _ cs) => cs
  | _ => []

/-- C10: for every children value, `RootLayout` renders exactly those
children unchanged inside the `Providers` wrapper, with the document language
fixed to "id"; the exported `metadata` is the constant with title
"OSIS Management System", independent of any input. -/
theorem root_layout_wraps_children :
    (∀ c : Html, htmlLangOf (RootLayout c) = some "id")
    ∧ (∀ c : Html, providersChildrenOf (RootLayout c) = [c])
    ∧ metadata.title = "OSIS Management System" := by
  refine ⟨?_, ?_, rfl⟩
  · intro c
    rfl
  · intro c
    rfl

end WebOsis
